import Mathlib

/-!
Verification development for the HiSim household energy simulation.

The sections below shallowly embed the parts of the repository that the
properties under study refer to:

* the weighted multi-source dispatch allocation of the energy-management
  controller (spec §4.3; the controller implementation itself is not part
  of the vendored sources, so it is modelled from the spec),
* the bounded convergence retry loop of the scheduler (spec §4.2/§5;
  likewise modelled from the spec),
* `SystemChart.make_chart` / `make_graphviz_chart`
  (hisim/postprocessing/system_chart.py),
* `UtspLpgConnector.build` and `UtspLpgConnector.i_simulate`
  (hisim/components/loadprofilegenerator_utsp_connector.py).

Python floats are embedded as rationals (the properties under study are
about branch structure and exact index arithmetic, not rounding of
binary floating point); Python exceptions are embedded as `Except`.
-/

deriving instance DecidableEq for Except

namespace HiSim

/-! ## Dispatch controller (modelled from the spec)

Modelled from the spec: the weighted multi-source dispatch allocation of
`DispatchController` (spec §4.3).  The implementation
(`controller_l2_energy_management_system`) is not among the vendored
source files; only its wiring callers are (examples/basic_dynamic_components.py).
Sources are (weight, capacity) pairs; the controller sorts bound sources
by weight ascending and walks the sorted list, allocating as much of the
outstanding requirement to each source as its capacity allows and
decrementing the outstanding requirement; a negative requirement is
absorbed with the same walk in the opposite polarity. -/

structure Source where
  weight : ℤ
  capacity : ℤ
  deriving DecidableEq, Repr

/-- Insert a source into a weight-sorted list, keeping weights ascending
(stable for equal weights, matching the wiring order). -/
def insertByWeight (s : Source) : List Source → List Source
  | [] => [s]
  | t :: rest =>
      if s.weight < t.weight then s :: t :: rest
      else t :: insertByWeight s rest

/-- Sort bound sources by weight ascending (lower weight = higher priority). -/
def sortByWeight : List Source → List Source
  | [] => []
  | s :: rest => insertByWeight s (sortByWeight rest)

/-- The amount the walk allocates to one source: as much of the outstanding
requirement as the capacity allows, in the polarity of the requirement. -/
def allocAmount (req cap : ℤ) : ℤ :=
  if 0 ≤ req then min req cap else -(min (-req) cap)

/-- One allocation walk over the capacities of the (already sorted) sources:
each source receives as much of the outstanding requirement as its capacity
allows (in the polarity of the requirement), and the outstanding requirement
is decremented by the allocation. -/
def allocate : ℤ → List ℤ → List ℤ
  | _, [] => []
  | req, cap :: rest =>
      allocAmount req cap :: allocate (req - allocAmount req cap) rest

/-- The dispatch controller: sort sources by weight ascending, walk the
sorted list with `allocate`, and emit one (weight, target) pair per source. -/
def dispatch (sources : List Source) (req : ℤ) : List (ℤ × ℤ) :=
  let sorted := sortByWeight sources
  List.zip (sorted.map Source.weight) (allocate req (sorted.map Source.capacity))

/-- The claim's description of the walk: each source is allocated the
minimum of the outstanding requirement and its capacity, and the
outstanding requirement is decremented as the walk goes. -/
def minWalk : ℤ → List ℤ → List ℤ
  | _, [] => []
  | req, cap :: rest => min req cap :: minWalk (req - min req cap) rest

/-- Modelled from the spec: the scheduler's per-step convergence loop
(spec §4.2, §5).  The scheduler implementation is not among the vendored
source files.  Each recursive step executes the components once
(`step : σ → σ`) and collects the stability verdict; the loop stops when
the verdict is true or when the fixed retry bound is exhausted, in which
case it returns normally (non-fatally) with the last computed values and
a recorded convergence warning.  Returns (final values, iterations run,
convergence warning emitted). -/
def runStep {σ : Type} (step : σ → σ) (stable : σ → Bool) :
    ℕ → σ → ℕ → σ × ℕ × Bool
  | 0, s, iters => (s, iters, true)
  | fuel + 1, s, iters =>
      let s' := step s
      if stable s' then (s', iters + 1, false)
      else runStep step stable fuel s' (iters + 1)

/-- Run one scheduler time step with the given retry bound. -/
def schedulerStep {σ : Type} (maxRetries : ℕ) (step : σ → σ)
    (stable : σ → Bool) (init : σ) : σ × ℕ × Bool :=
  runStep step stable maxRetries init 0

/-! ## SystemChart (hisim/postprocessing/system_chart.py) -/

structure SystemChartEntry where
  filename : String
  caption : String
  deriving DecidableEq, Repr

structure WrappedInput where
  field_name : String
  src_object_name : Option String
  src_field_name : String
  unit : String
  deriving DecidableEq, Repr

structure WrappedComponent where
  component_name : String
  class_name : String
  inputs : List WrappedInput
  deriving DecidableEq, Repr

/-- The fallible body of the `try` block of
`SystemChart.make_graphviz_chart`: looking up `node_dict` for an input
whose `src_object_name` is not a registered component name raises a
`KeyError`, and the final `graph.write_png` call (the external Graphviz
toolchain) can fail; its outcome is a parameter.  The edge-label string
building itself is pure and cannot fail. -/
def chartBody (components : List WrappedComponent)
    (writePng : Except String Unit) : Except String Unit :=
  if components.all (fun comp => comp.inputs.all (fun inp =>
      match inp.src_object_name with
      | none => true
      | some n => (components.map WrappedComponent.component_name).contains n))
  then writePng
  else Except.error "KeyError"

/-- `SystemChart.make_graphviz_chart`: the entry is created first; any
exception raised inside the `try` block is caught and logged and the
result is set to `None` instead of the exception propagating. -/
def make_graphviz_chart (components : List WrappedComponent)
    (writePng : Except String Unit) (filename caption : String) :
    Option SystemChartEntry :=
  match chartBody components writePng with
  | Except.ok _ => some ⟨filename, caption⟩
  | Except.error _ => none

/-- `SystemChart.make_chart`: three rendering attempts; every non-`None`
result is appended to the file list.  `w1`, `w2`, `w3` are the outcomes of
the three external `write_png` calls. -/
def make_chart (components : List WrappedComponent)
    (w1 w2 w3 : Except String Unit) : List SystemChartEntry :=
  let files : List SystemChartEntry := []
  let f1 := make_graphviz_chart components w1
    "System_no_Edge_with_class_labels.png" "System Chart of all components"
  let files := files ++ f1.toList
  let f2 := make_graphviz_chart components w2
    "System_no_Edge_labels.png" "System Chart of all components and all outputs."
  let files := files ++ f2.toList
  let f3 := make_graphviz_chart components w3
    "System_with_Edge_labels.png" "System Chart with labels on all edges."
  files ++ f3.toList

/-! ## UtspLpgConnector (hisim/components/loadprofilegenerator_utsp_connector.py) -/

/-- Modelled from the spec: the domain constant classes
`HouseholdWarmWaterDemandConfig` and `PhysicsConfig`
(hisim/components/configuration.py) are not among the vendored source
files; the class attributes that `i_simulate` reads are kept as abstract
rational parameters ("the exact warm-up values are domain constants in
the source", spec §9). -/
structure WWConfig where
  ww_temperature_demand : ℚ
  freshwater_temperature : ℚ
  temperature_difference_hot : ℚ
  temperature_difference_cold : ℚ
  heat_exchanger_losses : ℚ
  water_specific_heat_capacity : ℚ
  deriving DecidableEq, Repr

namespace UtspLpgConnector

def NumberByResidents : String := "NumberByResidents"

def HeatingByResidents : String := "HeatingByResidents"

def ElectricityOutput : String := "ElectricityOutput"

def WaterConsumption : String := "WaterConsumption"

def Electricity_Demand_Forecast_24h : String := "Electricity_Demand_Forecast_24h"

/-- The four profile series built once by `build` and read per step. -/
structure ProfileState where
  number_of_residents : List ℚ
  heating_by_residents : List ℚ
  electricity_consumption : List ℚ
  water_consumption : List ℚ
  deriving DecidableEq, Repr

structure SimParams where
  seconds_per_timestep : ℕ
  predictive : Bool
  deriving DecidableEq, Repr

/-- The component's per-step inputs: whether the warm-water mass input is
bound (`ww_mass_input.source_output is not None`) and the two values read
from the step's value store. -/
structure SimInputs where
  ww_mass_bound : Bool
  ww_mass_input : ℚ
  ww_temperature_input : ℚ
  deriving DecidableEq, Repr

/-- `ww_energy_demand` as computed in `i_simulate` (specific heat
4180/3600, water consumption of the step, temperature lift from
freshwater to the demand temperature). -/
def ww_energy_demand (cfg : WWConfig) (waterCons : ℚ) : ℚ :=
  4180 / 3600 * waterCons * (cfg.ww_temperature_demand - cfg.freshwater_temperature)

/-- The first-iteration warm-up substitution (source lines 199-204): when
the energy demand is positive and both feedback inputs read zero, the
hard-coded constants 9.3 (mass) and 40.45 (temperature) replace them. -/
def warmupSubstitute (energyDemand mass temp : ℚ) : ℚ × ℚ :=
  if 0 < energyDemand ∧ mass = 0 ∧ temp = 0 then (9.3, 40.45) else (mass, temp)

structure WWResult where
  demand_satisfied : ℚ
  ww_mass_output : ℚ
  ww_temperature_output : ℚ
  energy_discharged : ℚ
  deriving DecidableEq, Repr

/-- The divisor of the discharged-mass computation (source lines 218-221):
water specific heat capacity times (current warm-water temperature input
minus the backflow temperature freshwater + temperature_difference_cold). -/
def wwDivisor (cfg : WWConfig) (temp1 : ℚ) : ℚ :=
  cfg.water_specific_heat_capacity
    * (temp1 - (cfg.freshwater_temperature + cfg.temperature_difference_cold))

/-- The warm-water branch of `i_simulate` (source lines 159-232).  Its
results are computed but discarded by the caller (the four corresponding
`set_output_value` calls are commented out in the source); the branch is
still observable through a possible `ZeroDivisionError`. -/
def wwCompute (cfg : WWConfig) (waterCons mass temp : ℚ) : Except String WWResult :=
  let energy_losses : ℚ := 0
  let demand := ww_energy_demand cfg waterCons
  let demand_satisfied : ℚ :=
    if cfg.ww_temperature_demand + cfg.temperature_difference_hot < temp ∨ demand = 0
    then 1 else 0
  let sub := warmupSubstitute demand mass temp
  if 0 < demand then
    let energy_discharged := demand + energy_losses
    let ww_temperature_output :=
      cfg.freshwater_temperature + cfg.temperature_difference_cold
    if wwDivisor cfg sub.2 = 0 then Except.error "ZeroDivisionError"
    else Except.ok ⟨demand_satisfied, energy_discharged / wwDivisor cfg sub.2,
      ww_temperature_output, energy_discharged⟩
  else Except.ok ⟨demand_satisfied, 0, sub.2, 0⟩

/-- External effects performed by the component; `build` is the only
place that emits them. -/
inductive BuildEffect
  | fetchProfiles
  | writeCache (d : ProfileState)
  deriving DecidableEq, Repr

/-- What one call of `i_simulate` produces: the component state afterwards,
the values written to the step's value store, the forecast entry stored in
the simulation repository (if any), and the external effects performed. -/
structure SimResult where
  state : ProfileState
  writes : List (String × ℚ)
  forecast : Option (String × List ℚ)
  effects : List BuildEffect
  deriving DecidableEq, Repr

/-- `UtspLpgConnector.i_simulate` (source lines 156-258).
`seconds_per_timestep` is positive for every well-formed
`SimulationParameters` object. -/
def i_simulate (cfg : WWConfig) (params : SimParams) (st : ProfileState)
    (timestep : ℕ) (inp : SimInputs) : Except String SimResult :=
  let wwStep : Except String Unit :=
    if inp.ww_mass_bound then
      match wwCompute cfg (st.water_consumption.getD timestep 0)
          inp.ww_mass_input inp.ww_temperature_input with
      | Except.ok _ => Except.ok ()
      | Except.error e => Except.error e
    else Except.ok ()
  match wwStep with
  | Except.error e => Except.error e
  | Except.ok _ =>
    let writes : List (String × ℚ) :=
      [(NumberByResidents, st.number_of_residents.getD timestep 0),
       (HeatingByResidents, st.heating_by_residents.getD timestep 0),
       (ElectricityOutput, st.electricity_consumption.getD timestep 0),
       (WaterConsumption, st.water_consumption.getD timestep 0)]
    let forecast : Option (String × List ℚ) :=
      if params.predictive then
        let last_forecast_timestep :=
          min (timestep + 24 * 3600 / params.seconds_per_timestep)
            st.electricity_consumption.length
        some (Electricity_Demand_Forecast_24h,
          (st.electricity_consumption.drop timestep).take
            (last_forecast_timestep - timestep))
      else none
    Except.ok ⟨st, writes, forecast, []⟩

/-- The parsed payload of the UTSP response used by `build` on a cache
miss: the "Sum [kWh]" column of the electricity file, the "Sum [L]"
column of the warm-water file, and the "Values" arrays of the high and
low bodily-activity files. -/
structure UtspFetchResult where
  electricitySums : List ℚ
  waterSums : List ℚ
  highActivity : List ℚ
  lowActivity : List ℚ
  deriving DecidableEq, Repr

/-- The environment `build` runs in: whether the cache file exists, the
four columns it holds when it does, the parsed fetch result used on a
miss, and the number of desired simulation steps computed from the
simulation parameters. -/
structure BuildEnv where
  cacheExists : Bool
  cached : ProfileState
  fetched : UtspFetchResult
  steps_desired : ℕ
  deriving DecidableEq, Repr

/-- `numpy.round`: round half to even. -/
def bankerRound (q : ℚ) : ℤ :=
  if q - Int.floor q < 1 / 2 then Int.floor q
  else if 1 / 2 < q - Int.floor q then Int.floor q + 1
  else if Int.floor q % 2 = 0 then Int.floor q else Int.floor q + 1

/-- Sum of the Python slice `l[start : start + len]` (clamped at the end
of the list, as Python slices are). -/
def sumSlice (l : List ℚ) (start len : ℕ) : ℚ :=
  ((l.drop start).take len).sum

/-- Mean of simulation step `t`'s block of `ratio` original values. -/
def blockMean (l : List ℚ) (ratio t : ℕ) : ℚ :=
  sumSlice l (t * ratio) ratio / ratio

/-- Unit conversion applied to the fetched electricity column
(`* 1000 * 60`, 1 kWh/min == 60 kW sustained for that minute). -/
def convertElectricity (l : List ℚ) : List ℚ :=
  l.map (fun x => x * 1000 * 60)

/-- Number of iterations of Python's `range(0, orig, ratio)` for
`ratio > 0`. -/
def numBlocks (orig ratio : ℕ) : ℕ :=
  (orig + ratio - 1) / ratio

/-- The cache-miss series computation of `build` (source lines 407-510):
`steps_original` is the length of the fetched occupancy profile
(`occupancy_profile[0]["Values"]`, the high-activity array);
matching resolutions are taken per step — where the equal-resolution
loops index `occupancy_profile[mode]["Values"][timestep]` directly for
every `timestep < steps_original`, raising an IndexError when the
low-activity array is shorter than the high-activity array —, a coarser
simulation resolution averages (electricity, per-mode residents) or sums
(water) blocks of `steps_ratio` original values (Python slices clamp, so
no indexing error there), and a finer original resolution raises. -/
def resample (f : UtspFetchResult) (steps_desired : ℕ) :
    Except String ProfileState :=
  let steps_original := f.highActivity.length
  if steps_desired = 0 then Except.error "ZeroDivisionError"
  else
    let steps_ratio := steps_original / steps_desired
    let elec := convertElectricity f.electricitySums
    let water := f.waterSums
    if steps_original = steps_desired then
      if f.lowActivity.length < steps_original then
        Except.error "IndexError"
      else
        Except.ok
          { number_of_residents :=
              (List.range steps_desired).map
                (fun t => f.highActivity.getD t 0 + f.lowActivity.getD t 0)
            heating_by_residents :=
              (List.range steps_desired).map
                (fun t => 150 * f.highActivity.getD t 0 + 100 * f.lowActivity.getD t 0)
            electricity_consumption := elec
            water_consumption := water }
    else if steps_desired < steps_original then
      Except.ok
        { number_of_residents :=
            (List.range steps_desired).map (fun t =>
              (bankerRound (blockMean f.highActivity steps_ratio t) : ℚ)
                + (bankerRound (blockMean f.lowActivity steps_ratio t) : ℚ))
          heating_by_residents :=
            (List.range steps_desired).map (fun t =>
              150 * blockMean f.highActivity steps_ratio t
                + 100 * blockMean f.lowActivity steps_ratio t)
          electricity_consumption :=
            (List.range (numBlocks steps_original steps_ratio)).map
              (fun k => sumSlice elec (k * steps_ratio) steps_ratio / steps_ratio)
          water_consumption :=
            (List.range (numBlocks steps_original steps_ratio)).map
              (fun k => sumSlice water (k * steps_ratio) steps_ratio) }
    else
      Except.error
        "input from LPG is given in wrong time resolution - or at least cannot be interpolated correctly"

/-- Python's `max(list)`: `None` stands for the `ValueError` on an empty
sequence. -/
def listMax : List ℚ → Option ℚ
  | [] => none
  | x :: rest =>
    match listMax rest with
    | none => some x
    | some m => some (max x m)

/-- `UtspLpgConnector.build` (source lines 385-535): consult the cache
once; on a hit load the four columns from the cache file with no profile
request; on a miss fetch the profiles, compute the four series, and
persist them to the cache file in the same four-column layout.  Returns
the profile state, `max_hot_water_demand`, and the external effects
performed. -/
def build (env : BuildEnv) : Except String (ProfileState × ℚ × List BuildEffect) :=
  if env.cacheExists then
    match listMax env.cached.water_consumption with
    | none => Except.error "ValueError: max() arg is an empty sequence"
    | some m => Except.ok (env.cached, m, [])
  else
    match resample env.fetched env.steps_desired with
    | Except.error e => Except.error e
    | Except.ok d =>
      match listMax d.water_consumption with
      | none => Except.error "ValueError: max() arg is an empty sequence"
      | some m =>
        Except.ok (d, m, [BuildEffect.fetchProfiles, BuildEffect.writeCache d])

end UtspLpgConnector

theorem mem_insertByWeight {x s : Source} {l : List Source} :
    x ∈ insertByWeight s l ↔ x = s ∨ x ∈ l := by
  induction l with
  | nil => simp [insertByWeight]
  | cons t rest ih =>
      simp only [insertByWeight]
      split
      · simp
      · simp only [List.mem_cons, ih]
        tauto

theorem mem_sortByWeight {x : Source} {l : List Source} :
    x ∈ sortByWeight l ↔ x ∈ l := by
  induction l with
  | nil => simp [sortByWeight]
  | cons s rest ih =>
      simp only [sortByWeight, mem_insertByWeight, List.mem_cons, ih]

theorem insertByWeight_pairwise (s : Source) (l : List Source)
    (h : l.Pairwise (fun a b => a.weight ≤ b.weight)) :
    (insertByWeight s l).Pairwise (fun a b => a.weight ≤ b.weight) := by
  induction l with
  | nil => simp [insertByWeight]
  | cons t rest ih =>
      rcases List.pairwise_cons.mp h with ⟨ht, hrest⟩
      simp only [insertByWeight]
      split
      · rename_i hlt
        refine List.pairwise_cons.mpr ⟨?_, h⟩
        intro x hx
        rcases List.mem_cons.mp hx with rfl | hx
        · exact le_of_lt hlt
        · exact le_trans (le_of_lt hlt) (ht x hx)
      · rename_i hge
        refine List.pairwise_cons.mpr ⟨?_, ih hrest⟩
        intro x hx
        rcases mem_insertByWeight.mp hx with rfl | hx
        · omega
        · exact ht x hx

theorem sortByWeight_pairwise (l : List Source) :
    (sortByWeight l).Pairwise (fun a b => a.weight ≤ b.weight) := by
  induction l with
  | nil => simp [sortByWeight]
  | cons s rest ih => exact insertByWeight_pairwise s (sortByWeight rest) ih

theorem allocate_length (req : ℤ) (caps : List ℤ) :
    (allocate req caps).length = caps.length := by
  induction caps generalizing req with
  | nil => rfl
  | cons c rest ih => simp [allocate, ih]

theorem allocate_eq_minWalk (req : ℤ) (caps : List ℤ) (hreq : 0 ≤ req)
    (hcaps : ∀ c ∈ caps, 0 ≤ c) : allocate req caps = minWalk req caps := by
  induction caps generalizing req with
  | nil => rfl
  | cons c rest ih =>
      have hc : 0 ≤ c := hcaps c (List.mem_cons_self _ _)
      have hrest : ∀ x ∈ rest, 0 ≤ x := fun x hx => hcaps x (List.mem_cons_of_mem _ hx)
      have hrem : 0 ≤ req - min req c := by
        have := min_le_left req c
        omega
      simp only [allocate, minWalk, allocAmount, if_pos hreq]
      rw [ih (req - min req c) hrem hrest]

theorem allocate_sum (req : ℤ) (caps : List ℤ) (hreq : 0 ≤ req)
    (hcaps : ∀ c ∈ caps, 0 ≤ c) :
    (allocate req caps).sum = min req caps.sum := by
  induction caps generalizing req with
  | nil =>
      simp only [allocate, List.sum_nil]
      exact (min_eq_right hreq).symm
  | cons c rest ih =>
      have hc : 0 ≤ c := hcaps c (List.mem_cons_self _ _)
      have hrest : ∀ x ∈ rest, 0 ≤ x := fun x hx => hcaps x (List.mem_cons_of_mem _ hx)
      have hrestsum : 0 ≤ rest.sum := List.sum_nonneg hrest
      have hrem : 0 ≤ req - min req c := by
        have := min_le_left req c
        omega
      simp only [allocate, allocAmount, if_pos hreq, List.sum_cons]
      rw [ih (req - min req c) hrem hrest]
      rcases le_total req c with h | h
      · rw [min_eq_left h]
        omega
      · rw [min_eq_right h]
        omega

theorem runStep_iters_le {σ : Type} (step : σ → σ) (stable : σ → Bool)
    (fuel : ℕ) (s : σ) (iters : ℕ) :
    (runStep step stable fuel s iters).2.1 ≤ iters + fuel := by
  induction fuel generalizing s iters with
  | zero => simp [runStep]
  | succ n ih =>
      simp only [runStep]
      split
      · show iters + 1 ≤ iters + (n + 1)
        omega
      · have := ih (step s) (iters + 1)
        omega

theorem runStep_never_stable {σ : Type} (step : σ → σ)
    (fuel : ℕ) (s : σ) (iters : ℕ) :
    runStep step (fun _ => false) fuel s iters
      = (step^[fuel] s, iters + fuel, true) := by
  induction fuel generalizing s iters with
  | zero => simp [runStep]
  | succ n ih =>
      have h1 : runStep step (fun _ : σ => false) (n + 1) s iters
          = runStep step (fun _ : σ => false) n (step s) (iters + 1) := rfl
      rw [h1, ih (step s) (iters + 1), Function.iterate_succ_apply]
      have h2 : iters + 1 + n = iters + (n + 1) := by omega
      rw [h2]

/-- C1: For the dispatch controller, for every set of bound sources sorted
by weight ascending, walking the sorted list allocates to each source the
minimum of the outstanding requirement and that source's capacity,
decrementing the outstanding requirement as it goes; in particular, for
sources with weights [1,2,3] and capacities [5,5,5] and an outstanding
requirement of 8 the emitted per-source targets are [5,3,0] in weight
order and their sum equals 8. -/
theorem dispatch_weighted_min_walk :
    (∀ (sources : List Source) (req : ℤ), 0 ≤ req →
        (∀ s ∈ sources, 0 ≤ s.capacity) →
        (sortByWeight sources).Pairwise (fun a b => a.weight ≤ b.weight) ∧
        (dispatch sources req).map Prod.snd
          = minWalk req ((sortByWeight sources).map Source.capacity)) ∧
    dispatch [⟨1, 5⟩, ⟨2, 5⟩, ⟨3, 5⟩] 8 = [(1, 5), (2, 3), (3, 0)] ∧
    ((dispatch [⟨1, 5⟩, ⟨2, 5⟩, ⟨3, 5⟩] 8).map Prod.snd).sum = 8 := by
  refine ⟨?_, by decide, by decide⟩
  intro sources req hreq hcap
  refine ⟨sortByWeight_pairwise sources, ?_⟩
  have hcap' : ∀ c ∈ (sortByWeight sources).map Source.capacity, 0 ≤ c := by
    intro c hc
    rcases List.mem_map.mp hc with ⟨s, hs, rfl⟩
    exact hcap s (mem_sortByWeight.mp hs)
  calc (dispatch sources req).map Prod.snd
      = allocate req ((sortByWeight sources).map Source.capacity) := by
        unfold dispatch
        exact List.map_snd_zip _ _ (by rw [allocate_length]; simp)
    _ = minWalk req ((sortByWeight sources).map Source.capacity) :=
        allocate_eq_minWalk _ _ hreq hcap'

theorem dispatch_weighted_min_walk_witness :
    (sortByWeight [⟨2, 5⟩, ⟨1, 5⟩, ⟨3, 5⟩]).Pairwise
      (fun a b => a.weight ≤ b.weight) ∧
    (dispatch [⟨2, 5⟩, ⟨1, 5⟩, ⟨3, 5⟩] 8).map Prod.snd
      = minWalk 8 ((sortByWeight [⟨2, 5⟩, ⟨1, 5⟩, ⟨3, 5⟩]).map Source.capacity) :=
  dispatch_weighted_min_walk.1 [⟨2, 5⟩, ⟨1, 5⟩, ⟨3, 5⟩] 8 (by decide) (by decide)

/-- C5: For every time step, the scheduler's convergence retry loop is
bounded by a fixed iteration cap: with max retries = 3 and a component
whose stability check never passes, the step terminates after exactly 3
iterations, records a convergence warning (the `true` flag), and the loop
returns normally (non-fatally) with the last computed values
`step (step (step init))`. -/
theorem schedulerStep_bounded_retries :
    (∀ (σ : Type) (maxRetries : ℕ) (step : σ → σ) (stable : σ → Bool) (init : σ),
        (schedulerStep maxRetries step stable init).2.1 ≤ maxRetries) ∧
    (∀ (σ : Type) (step : σ → σ) (init : σ),
        schedulerStep 3 step (fun _ => false) init
          = (step (step (step init)), 3, true)) := by
  constructor
  · intro σ maxRetries step stable init
    have h := runStep_iters_le step stable maxRetries init 0
    simpa [schedulerStep] using h
  · intro σ step init
    show runStep step (fun _ => false) 3 init 0 = (step (step (step init)), 3, true)
    rw [runStep_never_stable step 3 init 0]
    rfl

/-- C2: For every invocation of `SystemChart.make_graphviz_chart`, any
failure during rendering is caught (and logged) and the call returns
`None` instead of raising, so `make_chart` returns a list containing only
the successfully produced chart entries and a rendering failure never
fails the simulation run. -/
theorem make_chart_degrades_gracefully :
    (∀ (components : List WrappedComponent) (w : Except String Unit)
        (filename caption : String) (e : String),
        chartBody components w = Except.error e →
        make_graphviz_chart components w filename caption = none) ∧
    (∀ (components : List WrappedComponent) (w : Except String Unit)
        (filename caption : String),
        chartBody components w = Except.ok () →
        make_graphviz_chart components w filename caption
          = some ⟨filename, caption⟩) ∧
    (∀ (components : List WrappedComponent) (w1 w2 w3 : Except String Unit),
        make_chart components w1 w2 w3
          = (make_graphviz_chart components w1
              "System_no_Edge_with_class_labels.png"
              "System Chart of all components").toList
            ++ (make_graphviz_chart components w2
              "System_no_Edge_labels.png"
              "System Chart of all components and all outputs.").toList
            ++ (make_graphviz_chart components w3
              "System_with_Edge_labels.png"
              "System Chart with labels on all edges.").toList) := by
  refine ⟨?_, ?_, ?_⟩
  · intro components w filename caption e h
    unfold make_graphviz_chart
    rw [h]
  · intro components w filename caption h
    unfold make_graphviz_chart
    rw [h]
  · intro components w1 w2 w3
    rfl

theorem make_chart_degrades_gracefully_witness :
    make_graphviz_chart [] (Except.error "graphviz missing") "f.png" "cap" = none ∧
    make_graphviz_chart [] (Except.ok ()) "f.png" "cap" = some ⟨"f.png", "cap"⟩ :=
  ⟨make_chart_degrades_gracefully.1 [] (Except.error "graphviz missing")
      "f.png" "cap" "graphviz missing" rfl,
   make_chart_degrades_gracefully.2.1 [] (Except.ok ()) "f.png" "cap" rfl⟩

namespace UtspLpgConnector

theorem listMax_cons (x : ℚ) (rest : List ℚ) :
    ∃ m, listMax (x :: rest) = some m := by
  cases h : listMax rest <;> simp [listMax, h]

/-- Every successful call of `i_simulate` produces exactly this result:
the unchanged profile state, the four output writes, the forecast entry
when the predictive option is set, and no external effects. -/
theorem i_simulate_ok_eq (cfg : WWConfig) (params : SimParams)
    (st : ProfileState) (timestep : ℕ) (inp : SimInputs) (r : SimResult)
    (h : i_simulate cfg params st timestep inp = Except.ok r) :
    r = ⟨st,
      [(NumberByResidents, st.number_of_residents.getD timestep 0),
       (HeatingByResidents, st.heating_by_residents.getD timestep 0),
       (ElectricityOutput, st.electricity_consumption.getD timestep 0),
       (WaterConsumption, st.water_consumption.getD timestep 0)],
      (if params.predictive then
        some (Electricity_Demand_Forecast_24h,
          (st.electricity_consumption.drop timestep).take
            (min (timestep + 24 * 3600 / params.seconds_per_timestep)
               st.electricity_consumption.length - timestep))
       else none),
      []⟩ := by
  simp only [i_simulate] at h
  split at h
  · exact absurd h (by simp)
  · rw [Except.ok.injEq] at h
    exact h.symm

/-- With the warm-water branch not taken, `i_simulate` always succeeds. -/
theorem i_simulate_unbound_ok (cfg : WWConfig) (params : SimParams)
    (st : ProfileState) (timestep : ℕ) (inp : SimInputs)
    (hb : inp.ww_mass_bound = false) :
    ∃ r, i_simulate cfg params st timestep inp = Except.ok r := by
  simp only [i_simulate, hb, Bool.false_eq_true, if_false]
  exact ⟨_, rfl⟩

/-- C6: For every timestep within the length of the built profile series,
every (completed) call of `UtspLpgConnector.i_simulate` writes a value
into the per-step value store for each of the component's four declared
outputs (NumberByResidents, HeatingByResidents, ElectricityOutput,
WaterConsumption), exactly once per output, regardless of whether the
warm-water input branch is taken. -/
theorem i_simulate_writes_each_output_once (cfg : WWConfig)
    (params : SimParams) (st : ProfileState) (timestep : ℕ)
    (inp : SimInputs) (r : SimResult)
    (h1 : timestep < st.number_of_residents.length)
    (h2 : timestep < st.heating_by_residents.length)
    (h3 : timestep < st.electricity_consumption.length)
    (h4 : timestep < st.water_consumption.length)
    (hok : i_simulate cfg params st timestep inp = Except.ok r) :
    r.writes
      = [(NumberByResidents, st.number_of_residents.getD timestep 0),
         (HeatingByResidents, st.heating_by_residents.getD timestep 0),
         (ElectricityOutput, st.electricity_consumption.getD timestep 0),
         (WaterConsumption, st.water_consumption.getD timestep 0)] ∧
    r.writes.map Prod.fst
      = [NumberByResidents, HeatingByResidents, ElectricityOutput,
         WaterConsumption] ∧
    (∀ name ∈ [NumberByResidents, HeatingByResidents, ElectricityOutput,
        WaterConsumption], (r.writes.map Prod.fst).count name = 1) := by
  have h := i_simulate_ok_eq cfg params st timestep inp r hok
  subst h
  refine ⟨rfl, rfl, ?_⟩
  show ∀ name ∈ [NumberByResidents, HeatingByResidents, ElectricityOutput,
      WaterConsumption],
    ([NumberByResidents, HeatingByResidents, ElectricityOutput,
      WaterConsumption] : List String).count name = 1
  decide

theorem i_simulate_writes_each_output_once_witness :
    ([(NumberByResidents, (1 : ℚ)), (HeatingByResidents, 3),
      (ElectricityOutput, 5), (WaterConsumption, 7)] :
        List (String × ℚ)).map Prod.fst
      = [NumberByResidents, HeatingByResidents, ElectricityOutput,
         WaterConsumption] :=
  (i_simulate_writes_each_output_once ⟨45, 10, 5, 5, 0, 4182⟩ ⟨3600, false⟩
    ⟨[1, 2], [3, 4], [5, 6], [7, 8]⟩ 0 ⟨false, 0, 0⟩
    ⟨⟨[1, 2], [3, 4], [5, 6], [7, 8]⟩,
      [(NumberByResidents, 1), (HeatingByResidents, 3),
       (ElectricityOutput, 5), (WaterConsumption, 7)], none, []⟩
    (by decide) (by decide) (by decide) (by decide) rfl).2.1

/-- C7: For every (completed) call of `UtspLpgConnector.i_simulate`, no
file or network access is performed (no external effects are emitted) and
none of the profile arrays built at construction time is modified; the
only state it writes is the per-step value store and, when the predictive
option is set, one forecast entry in the simulation repository. -/
theorem i_simulate_no_io_no_mutation (cfg : WWConfig) (params : SimParams)
    (st : ProfileState) (timestep : ℕ) (inp : SimInputs) (r : SimResult)
    (hok : i_simulate cfg params st timestep inp = Except.ok r) :
    r.state = st ∧
    r.state.number_of_residents = st.number_of_residents ∧
    r.state.heating_by_residents = st.heating_by_residents ∧
    r.state.electricity_consumption = st.electricity_consumption ∧
    r.state.water_consumption = st.water_consumption ∧
    r.effects = [] ∧
    r.writes
      = [(NumberByResidents, st.number_of_residents.getD timestep 0),
         (HeatingByResidents, st.heating_by_residents.getD timestep 0),
         (ElectricityOutput, st.electricity_consumption.getD timestep 0),
         (WaterConsumption, st.water_consumption.getD timestep 0)] ∧
    (params.predictive = false → r.forecast = none) ∧
    (params.predictive = true →
        ∃ fc, r.forecast = some (Electricity_Demand_Forecast_24h, fc)) := by
  have h := i_simulate_ok_eq cfg params st timestep inp r hok
  subst h
  refine ⟨rfl, rfl, rfl, rfl, rfl, rfl, rfl, ?_, ?_⟩
  · intro hp
    simp [hp]
  · intro hp
    refine ⟨(st.electricity_consumption.drop timestep).take
        (min (timestep + 24 * 3600 / params.seconds_per_timestep)
          st.electricity_consumption.length - timestep), ?_⟩
    simp [hp]

theorem i_simulate_no_io_no_mutation_witness :
    (⟨[1, 2], [3, 4], [5, 6], [7, 8]⟩ : ProfileState)
        = ⟨[1, 2], [3, 4], [5, 6], [7, 8]⟩ ∧
    ([] : List BuildEffect) = [] :=
  ⟨(i_simulate_no_io_no_mutation ⟨45, 10, 5, 5, 0, 4182⟩ ⟨3600, true⟩
      ⟨[1, 2], [3, 4], [5, 6], [7, 8]⟩ 0 ⟨false, 0, 0⟩
      ⟨⟨[1, 2], [3, 4], [5, 6], [7, 8]⟩,
        [(NumberByResidents, 1), (HeatingByResidents, 3),
         (ElectricityOutput, 5), (WaterConsumption, 7)],
        some (Electricity_Demand_Forecast_24h, [5, 6]), []⟩ rfl).1,
   (i_simulate_no_io_no_mutation ⟨45, 10, 5, 5, 0, 4182⟩ ⟨3600, true⟩
      ⟨[1, 2], [3, 4], [5, 6], [7, 8]⟩ 0 ⟨false, 0, 0⟩
      ⟨⟨[1, 2], [3, 4], [5, 6], [7, 8]⟩,
        [(NumberByResidents, 1), (HeatingByResidents, 3),
         (ElectricityOutput, 5), (WaterConsumption, 7)],
        some (Electricity_Demand_Forecast_24h, [5, 6]), []⟩ rfl).2.2.2.2.2.1⟩

/-- C3: `UtspLpgConnector.build` consults the cache once: if the cache
file exists it loads the four tabular series from that file and performs
no profile request (no effects at all); if it does not exist, every
successful build fetched the profiles, computed the four series via
`resample`, and persisted exactly those four columns to the cache file. -/
theorem build_consults_cache_once (env : BuildEnv)
    (hne : env.cached.water_consumption ≠ []) :
    (env.cacheExists = true →
        ∃ m, build env = Except.ok (env.cached, m, ([] : List BuildEffect))) ∧
    (env.cacheExists = false →
        ∀ d m effects, build env = Except.ok (d, m, effects) →
          resample env.fetched env.steps_desired = Except.ok d ∧
          effects = [BuildEffect.fetchProfiles, BuildEffect.writeCache d]) := by
  constructor
  · intro hc
    obtain ⟨x, rest, hx⟩ : ∃ x rest, env.cached.water_consumption = x :: rest := by
      cases h : env.cached.water_consumption with
      | nil => exact absurd h hne
      | cons a b => exact ⟨a, b, rfl⟩
    obtain ⟨m, hm⟩ := listMax_cons x rest
    refine ⟨m, ?_⟩
    simp only [build]
    rw [if_pos hc, hx, hm]
  · intro hc d m effects hok
    simp only [build] at hok
    rw [if_neg (by simp [hc])] at hok
    split at hok
    · exact absurd hok (by simp)
    · rename_i d' hres
      split at hok
      · exact absurd hok (by simp)
      · rename_i m' hmax
        simp only [Except.ok.injEq, Prod.mk.injEq] at hok
        obtain ⟨hd', hm', heff⟩ := hok
        subst hd'
        exact ⟨hres, heff.symm⟩

theorem build_consults_cache_once_witness :
    (∃ m, build ⟨true, ⟨[1], [2], [3], [4]⟩, ⟨[], [], [], []⟩, 1⟩
        = Except.ok ((⟨[1], [2], [3], [4]⟩ : ProfileState), m,
            ([] : List BuildEffect))) ∧
    (resample (⟨[1, 2], [10, 20], [2, 1], [0, 1]⟩ : UtspFetchResult) 2
        = Except.ok ⟨[2, 2], [300, 250], [60000, 120000], [10, 20]⟩ ∧
      ([BuildEffect.fetchProfiles, BuildEffect.writeCache
          ⟨[2, 2], [300, 250], [60000, 120000], [10, 20]⟩] : List BuildEffect)
        = [BuildEffect.fetchProfiles, BuildEffect.writeCache
            ⟨[2, 2], [300, 250], [60000, 120000], [10, 20]⟩]) :=
  ⟨(build_consults_cache_once
      ⟨true, ⟨[1], [2], [3], [4]⟩, ⟨[], [], [], []⟩, 1⟩ (by simp)).1 rfl,
   (build_consults_cache_once
      ⟨false, ⟨[1], [2], [3], [4]⟩, ⟨[1, 2], [10, 20], [2, 1], [0, 1]⟩, 2⟩
      (by simp)).2 rfl
      ⟨[2, 2], [300, 250], [60000, 120000], [10, 20]⟩ 20
      [BuildEffect.fetchProfiles, BuildEffect.writeCache
        ⟨[2, 2], [300, 250], [60000, 120000], [10, 20]⟩]
      (by
        simp only [build, resample, convertElectricity, listMax, numBlocks,
          blockMean, sumSlice]
        norm_num [List.range_succ, listMax, max_def])⟩

/-- C10: When the predictive option is enabled, every (completed) call of
`UtspLpgConnector.i_simulate` at timestep t stores under the key
"Electricity_Demand_Forecast_24h" the slice of the electricity
consumption series from t to min(t + floor(24*3600 / seconds_per_timestep),
length of the series); the stored forecast never exceeds 24 hours of
steps and is a contiguous piece of the series (never reads past its end). -/
theorem i_simulate_forecast_window (cfg : WWConfig) (params : SimParams)
    (st : ProfileState) (timestep : ℕ) (inp : SimInputs) (r : SimResult)
    (hp : params.predictive = true)
    (hok : i_simulate cfg params st timestep inp = Except.ok r) :
    r.forecast = some (Electricity_Demand_Forecast_24h,
      (st.electricity_consumption.drop timestep).take
        (min (timestep + 24 * 3600 / params.seconds_per_timestep)
           st.electricity_consumption.length - timestep)) ∧
    (∀ key fc, r.forecast = some (key, fc) →
        key = Electricity_Demand_Forecast_24h ∧
        fc.length ≤ 24 * 3600 / params.seconds_per_timestep ∧
        fc <:+: st.electricity_consumption) := by
  have h := i_simulate_ok_eq cfg params st timestep inp r hok
  subst h
  constructor
  · simp [hp]
  · intro key fc hfc
    simp only [hp, if_true] at hfc
    rw [Option.some.injEq, Prod.mk.injEq] at hfc
    obtain ⟨hkey, hfc⟩ := hfc
    subst hfc
    refine ⟨hkey.symm, ?_, ?_⟩
    · calc ((st.electricity_consumption.drop timestep).take
            (min (timestep + 24 * 3600 / params.seconds_per_timestep)
              st.electricity_consumption.length - timestep)).length
          ≤ min (timestep + 24 * 3600 / params.seconds_per_timestep)
              st.electricity_consumption.length - timestep :=
            List.length_take_le _ _
        _ ≤ 24 * 3600 / params.seconds_per_timestep :=
            Nat.sub_le_iff_le_add.mpr
              (le_trans (min_le_left _ _) (le_of_eq (Nat.add_comm _ _)))
    · exact (List.take_prefix _ _).isInfix.trans
        (List.drop_suffix _ _).isInfix

theorem i_simulate_forecast_window_witness :
    (some (Electricity_Demand_Forecast_24h, [5, 6]) : Option (String × List ℚ))
      = some (Electricity_Demand_Forecast_24h,
          (([5, 6] : List ℚ).drop 0).take
            (min (0 + 24 * 3600 / 3600) ([5, 6] : List ℚ).length - 0)) :=
  (i_simulate_forecast_window ⟨45, 10, 5, 5, 0, 4182⟩ ⟨3600, true⟩
    ⟨[1, 2], [3, 4], [5, 6], [7, 8]⟩ 0 ⟨false, 0, 0⟩
    ⟨⟨[1, 2], [3, 4], [5, 6], [7, 8]⟩,
      [(NumberByResidents, 1), (HeatingByResidents, 3),
       (ElectricityOutput, 5), (WaterConsumption, 7)],
      some (Electricity_Demand_Forecast_24h, [5, 6]), []⟩ rfl rfl).1

/-- With the warm-water branch taken and its computation succeeding,
`i_simulate` succeeds. -/
theorem i_simulate_bound_ok (cfg : WWConfig) (params : SimParams)
    (st : ProfileState) (timestep : ℕ) (m t : ℚ) (v : WWResult)
    (h : wwCompute cfg (st.water_consumption.getD timestep 0) m t
        = Except.ok v) :
    ∃ r, i_simulate cfg params st timestep ⟨true, m, t⟩ = Except.ok r := by
  simp only [i_simulate, h]
  exact ⟨_, rfl⟩

/-- C4: In `UtspLpgConnector.i_simulate`, whenever the warm-water mass
input is bound, the warm-water energy demand for the step is positive,
and both the warm-water mass input and the warm-water temperature input
read as exactly zero, the computation substitutes the hard-coded warm-up
constants 40.45 for the temperature input and 9.3 for the mass input
before computing the discharge (which therefore divides by the divisor
taken at temperature 40.45). -/
theorem wwCompute_warmup_constants (cfg : WWConfig) (waterCons : ℚ)
    (hdemand : 0 < ww_energy_demand cfg waterCons)
    (hdiv : wwDivisor cfg 40.45 ≠ 0) :
    warmupSubstitute (ww_energy_demand cfg waterCons) 0 0 = (9.3, 40.45) ∧
    wwCompute cfg waterCons 0 0
      = Except.ok
          ⟨if cfg.ww_temperature_demand + cfg.temperature_difference_hot < 0
              ∨ ww_energy_demand cfg waterCons = 0 then 1 else 0,
            (ww_energy_demand cfg waterCons + 0) / wwDivisor cfg 40.45,
            cfg.freshwater_temperature + cfg.temperature_difference_cold,
            ww_energy_demand cfg waterCons + 0⟩ ∧
    (∀ (params : SimParams) (st : ProfileState) (timestep : ℕ),
        st.water_consumption.getD timestep 0 = waterCons →
        ∃ r, i_simulate cfg params st timestep ⟨true, 0, 0⟩ = Except.ok r) := by
  have hsub : warmupSubstitute (ww_energy_demand cfg waterCons) 0 0
      = (9.3, 40.45) := by
    simp [warmupSubstitute, hdemand]
  have hcomp : wwCompute cfg waterCons 0 0
      = Except.ok
          ⟨if cfg.ww_temperature_demand + cfg.temperature_difference_hot < 0
              ∨ ww_energy_demand cfg waterCons = 0 then 1 else 0,
            (ww_energy_demand cfg waterCons + 0) / wwDivisor cfg 40.45,
            cfg.freshwater_temperature + cfg.temperature_difference_cold,
            ww_energy_demand cfg waterCons + 0⟩ := by
    simp only [wwCompute, hsub, if_pos hdemand]
    rw [if_neg hdiv]
  refine ⟨hsub, hcomp, ?_⟩
  intro params st timestep hwc
  have h' : wwCompute cfg (st.water_consumption.getD timestep 0) 0 0
      = Except.ok
          ⟨if cfg.ww_temperature_demand + cfg.temperature_difference_hot < 0
              ∨ ww_energy_demand cfg waterCons = 0 then 1 else 0,
            (ww_energy_demand cfg waterCons + 0) / wwDivisor cfg 40.45,
            cfg.freshwater_temperature + cfg.temperature_difference_cold,
            ww_energy_demand cfg waterCons + 0⟩ := by
    rw [hwc]
    exact hcomp
  exact i_simulate_bound_ok cfg params st timestep 0 0 _ h'

theorem wwCompute_warmup_constants_witness :
    warmupSubstitute (ww_energy_demand ⟨45, 10, 5, 5, 0, 4182⟩ 1) 0 0
      = (9.3, 40.45) :=
  (wwCompute_warmup_constants ⟨45, 10, 5, 5, 0, 4182⟩ 1
    (by norm_num [ww_energy_demand]) (by norm_num [wwDivisor])).1

/-- C9 counterexample: with domain constants
(demand temperature 45, freshwater 10, hot and cold differences 5,
heat capacity 4182), water consumption 1 for the step (so the energy
demand is positive), a bound warm-water mass input reading 1 and a
temperature input reading 15 = freshwater + temperature_difference_cold,
the divisor of the discharged-mass computation is zero and the division
raises a ZeroDivisionError, contradicting the claim that the divisor is
always nonzero. -/
theorem wwCompute_div_by_zero_counterexample :
    0 < ww_energy_demand ⟨45, 10, 5, 5, 0, 4182⟩ 1 ∧
    wwDivisor ⟨45, 10, 5, 5, 0, 4182⟩ 15 = 0 ∧
    wwCompute ⟨45, 10, 5, 5, 0, 4182⟩ 1 1 15
      = Except.error "ZeroDivisionError" ∧
    i_simulate ⟨45, 10, 5, 5, 0, 4182⟩ ⟨3600, false⟩ ⟨[1], [1], [1], [1]⟩ 0
        ⟨true, 1, 15⟩
      = Except.error "ZeroDivisionError" := by
  refine ⟨by norm_num [ww_energy_demand], by norm_num [wwDivisor], ?_, ?_⟩
  · simp only [wwCompute, warmupSubstitute]
    norm_num [wwDivisor, ww_energy_demand]
  · simp only [i_simulate, wwCompute, warmupSubstitute]
    norm_num [wwDivisor, ww_energy_demand]

/-- C9 (amended): For every call of `UtspLpgConnector.i_simulate` with a
bound warm-water mass input and positive warm-water energy demand, the
divisor used to compute the discharged mass is nonzero — and the division
safe — provided the water specific heat capacity is nonzero and the
(possibly warm-up-substituted) warm-water temperature input differs from
freshwater_temperature + temperature_difference_cold; when the
temperature input equals that sum the computation divides by zero. -/
theorem wwCompute_divisor_nonzero (cfg : WWConfig) (waterCons mass temp : ℚ)
    (hheat : cfg.water_specific_heat_capacity ≠ 0)
    (htemp : (warmupSubstitute (ww_energy_demand cfg waterCons) mass temp).2
        ≠ cfg.freshwater_temperature + cfg.temperature_difference_cold) :
    wwDivisor cfg
        (warmupSubstitute (ww_energy_demand cfg waterCons) mass temp).2 ≠ 0 ∧
    ∃ r, wwCompute cfg waterCons mass temp = Except.ok r := by
  have hdiv : wwDivisor cfg
      (warmupSubstitute (ww_energy_demand cfg waterCons) mass temp).2 ≠ 0 := by
    simp only [wwDivisor]
    exact mul_ne_zero hheat (sub_ne_zero.mpr htemp)
  refine ⟨hdiv, ?_⟩
  by_cases hd : 0 < ww_energy_demand cfg waterCons
  · simp only [wwCompute, if_pos hd]
    rw [if_neg hdiv]
    exact ⟨_, rfl⟩
  · simp only [wwCompute, if_neg hd]
    exact ⟨_, rfl⟩

theorem wwCompute_divisor_nonzero_witness :
    wwDivisor ⟨45, 10, 5, 5, 0, 4182⟩
        (warmupSubstitute (ww_energy_demand ⟨45, 10, 5, 5, 0, 4182⟩ 1) 1 20).2
      ≠ 0 :=
  (wwCompute_divisor_nonzero ⟨45, 10, 5, 5, 0, 4182⟩ 1 1 20
    (by norm_num) (by norm_num [warmupSubstitute])).1

theorem range_map_getD (n t : ℕ) (g : ℕ → ℚ) (h : t < n) :
    ((List.range n).map g).getD t 0 = g t := by
  rw [List.getD_eq_getElem?_getD, List.getElem?_map, List.getElem?_range h]
  rfl

theorem le_numBlocks (orig desired : ℕ) (h0 : 0 < desired)
    (h : desired < orig) : desired ≤ numBlocks orig (orig / desired) := by
  have hr : 0 < orig / desired := Nat.div_pos (le_of_lt h) h0
  have h1 : desired * (orig / desired) ≤ orig := by
    rw [Nat.mul_comm]
    exact Nat.div_mul_le_self orig desired
  have h2 : desired ≤ orig / (orig / desired) :=
    (Nat.le_div_iff_mul_le hr).mpr h1
  refine le_trans h2 ?_
  unfold numBlocks
  exact Nat.div_le_div_right (by omega)

/-- C8: In `UtspLpgConnector.build` on a cache miss, letting
steps_original be the length of the fetched occupancy profile and
steps_desired the number of simulation steps: if steps_original equals
steps_desired the series are taken per step as fetched (the per-step
indexing of the low-activity array requires it to be at least as long
as the high-activity array, else the source raises an IndexError); if
steps_original is greater, each simulation step's electricity
consumption is the mean of its (full, length steps_ratio =
floor(steps_original / steps_desired)) block of original values, water
consumption is the sum of its block, and the resident count is the sum
over the two activity modes of the rounded block mean; if steps_original
is less than steps_desired, build raises an exception. -/
theorem resample_three_cases (f : UtspFetchResult) (steps_desired : ℕ)
    (h0 : 0 < steps_desired)
    (hlenE : f.electricitySums.length = f.highActivity.length) :
    (f.highActivity.length = steps_desired →
      (f.highActivity.length ≤ f.lowActivity.length →
        resample f steps_desired = Except.ok
          { number_of_residents := (List.range steps_desired).map (fun t =>
              f.highActivity.getD t 0 + f.lowActivity.getD t 0),
            heating_by_residents := (List.range steps_desired).map (fun t =>
              150 * f.highActivity.getD t 0 + 100 * f.lowActivity.getD t 0),
            electricity_consumption := convertElectricity f.electricitySums,
            water_consumption := f.waterSums }) ∧
      (f.lowActivity.length < f.highActivity.length →
        resample f steps_desired = Except.error "IndexError")) ∧
    (steps_desired < f.highActivity.length →
      ∀ d, resample f steps_desired = Except.ok d →
        ∀ t, t < steps_desired →
          d.electricity_consumption.getD t 0
            = blockMean (convertElectricity f.electricitySums)
                (f.highActivity.length / steps_desired) t ∧
          (((convertElectricity f.electricitySums).drop
                (t * (f.highActivity.length / steps_desired))).take
                (f.highActivity.length / steps_desired)).length
            = f.highActivity.length / steps_desired ∧
          d.water_consumption.getD t 0
            = sumSlice f.waterSums
                (t * (f.highActivity.length / steps_desired))
                (f.highActivity.length / steps_desired) ∧
          d.number_of_residents.getD t 0
            = (bankerRound (blockMean f.highActivity
                  (f.highActivity.length / steps_desired) t) : ℚ)
              + (bankerRound (blockMean f.lowActivity
                  (f.highActivity.length / steps_desired) t) : ℚ) ∧
          d.heating_by_residents.getD t 0
            = 150 * blockMean f.highActivity
                  (f.highActivity.length / steps_desired) t
              + 100 * blockMean f.lowActivity
                  (f.highActivity.length / steps_desired) t) ∧
    (f.highActivity.length < steps_desired →
      ∃ e, resample f steps_desired = Except.error e) := by
  have hne : ¬(steps_desired = 0) := Nat.pos_iff_ne_zero.mp h0
  refine ⟨?_, ?_, ?_⟩
  · intro he
    constructor
    · intro hlow
      simp only [resample]
      rw [if_neg hne, if_pos he, if_neg (by omega)]
    · intro hlow
      simp only [resample]
      rw [if_neg hne, if_pos he, if_pos hlow]
  · intro hg d hok t ht
    have hblocks : t < numBlocks f.highActivity.length
        (f.highActivity.length / steps_desired) :=
      lt_of_lt_of_le ht (le_numBlocks _ _ h0 hg)
    simp only [resample] at hok
    rw [if_neg hne, if_neg (Nat.ne_of_gt hg), if_pos hg] at hok
    rw [Except.ok.injEq] at hok
    subst hok
    refine ⟨range_map_getD _ _ _ hblocks, ?_,
      range_map_getD _ _ _ hblocks, range_map_getD _ _ _ ht,
      range_map_getD _ _ _ ht⟩
    have h1 : steps_desired * (f.highActivity.length / steps_desired)
        ≤ f.highActivity.length := by
      rw [Nat.mul_comm]
      exact Nat.div_mul_le_self _ _
    have hblockfull : (t + 1) * (f.highActivity.length / steps_desired)
        ≤ f.highActivity.length :=
      le_trans (Nat.mul_le_mul_right _ (by omega)) h1
    have hconv : (convertElectricity f.electricitySums).length
        = f.highActivity.length := by
      simp [convertElectricity, hlenE]
    rw [List.length_take, List.length_drop, hconv]
    exact Nat.min_eq_left (Nat.le_sub_of_add_le (by
      rw [Nat.add_comm]
      calc t * (f.highActivity.length / steps_desired)
            + f.highActivity.length / steps_desired
          = (t + 1) * (f.highActivity.length / steps_desired) := by ring
        _ ≤ f.highActivity.length := hblockfull))
  · intro hl
    simp only [resample]
    rw [if_neg hne, if_neg (Nat.ne_of_lt hl), if_neg (by omega)]
    exact ⟨_, rfl⟩

theorem resample_three_cases_witness :
    ((⟨[2, 2], [300, 200], [90000, 210000], [30, 70]⟩ :
        ProfileState).electricity_consumption).getD 0 0
      = blockMean (convertElectricity [1, 2, 3, 4])
          (([2, 2, 0, 0] : List ℚ).length / 2) 0 :=
  ((resample_three_cases
      ⟨[1, 2, 3, 4], [10, 20, 30, 40], [2, 2, 0, 0], [0, 0, 2, 2]⟩ 2
      (by norm_num) rfl).2.1 (by norm_num)
    ⟨[2, 2], [300, 200], [90000, 210000], [30, 70]⟩
    (by
      simp only [resample, convertElectricity, numBlocks, blockMean,
        sumSlice, bankerRound]
      norm_num [List.range_succ])
    0 (by norm_num)).1

end UtspLpgConnector

end HiSim
